import Mathlib

/-!
Verification of the rocket/stage/payload core of the Delta2Simulator repository
(`rocket.py`) against its natural-language specification.

The embedding uses exact arithmetic: Python floats are modelled by `ℚ` in the
dynamics layer (mass bookkeeping, momentum, throttle) and by `ℝ` where the code
calls transcendental functions (attitude trigonometry).  Constructor-level
validation, which branches on `isinstance(_, float)` and on IEEE comparisons,
is modelled separately with an explicit Python-float value type (`PFloat`,
`PyVal`) so that the special values `inf`, `-inf` and `nan` and the exact
comparison semantics of the source are preserved.  Python exceptions are
modelled with `Except`.
-/

/-- The Python exceptions that the source can raise. -/
inductive PyErr where
  | typeError
  | valueError
  | zeroDivisionError
  | indexError
deriving DecidableEq, Repr

/-- A Python float value: a finite rational, one of the two infinities, or NaN. -/
inductive PFloat where
  | fin (q : ℚ)
  | inf
  | ninf
  | nan
deriving DecidableEq, Repr

/-- IEEE-754 `<` on Python floats: any comparison involving NaN is false. -/
def PFloat.lt : PFloat → PFloat → Bool
  | .fin a, .fin b => a < b
  | .fin _, .inf => true
  | .ninf, .fin _ => true
  | .ninf, .inf => true
  | _, _ => false

/-- IEEE-754 `>` on Python floats. -/
def PFloat.gt (a b : PFloat) : Bool := PFloat.lt b a

/-- A Python value as seen by an `isinstance(x, float)` check: either a float
or some non-float object. -/
inductive PyVal where
  | float (x : PFloat)
  | nonFloat
deriving DecidableEq, Repr

/-- Modelled from the spec: the external `Vector` class (absent from the
sources) is "an opaque 3D vector type supporting addition, scalar
multiplication, dot product, and normalization".  Exact-arithmetic layer. -/
structure Vec3 where
  x : ℚ
  y : ℚ
  z : ℚ
deriving DecidableEq, Repr

/-- Modelled from the spec: componentwise vector addition. -/
def Vec3.add (v w : Vec3) : Vec3 := ⟨v.x + w.x, v.y + w.y, v.z + w.z⟩

/-- Modelled from the spec: scalar times vector, componentwise. -/
def Vec3.smul (a : ℚ) (v : Vec3) : Vec3 := ⟨a * v.x, a * v.y, a * v.z⟩

/-- Modelled from the spec: vector divided by a scalar, componentwise.  The
Python division raises `ZeroDivisionError` on a zero divisor; callers of this
total function perform that zero test themselves. -/
def Vec3.divScalar (v : Vec3) (a : ℚ) : Vec3 := ⟨v.x / a, v.y / a, v.z / a⟩

/-- Modelled from the spec: the external vector type over `ℝ`, used for the
attitude computations, which involve `sin`, `cos`, `arccos` and `sqrt`. -/
structure Vec3R where
  x : ℝ
  y : ℝ
  z : ℝ

/-- Modelled from the spec: dot product over `ℝ`. -/
def Vec3R.dot (v w : Vec3R) : ℝ := v.x * w.x + v.y * w.y + v.z * w.z

/-- Modelled from the spec: Euclidean magnitude of a vector over `ℝ`. -/
noncomputable def Vec3R.norm (v : Vec3R) : ℝ :=
  Real.sqrt (v.x ^ 2 + v.y ^ 2 + v.z ^ 2)

/-- Modelled from the spec: `hat()` normalization, the vector divided by its
magnitude. -/
noncomputable def Vec3R.hat (v : Vec3R) : Vec3R :=
  ⟨v.x / v.norm, v.y / v.norm, v.z / v.norm⟩

/-- A `Stage` in the exact-arithmetic dynamics layer (`rocket.py`, class
`Stage`): dry mass, fuel mass, maximum thrust magnitude, maximum fuel flow,
length, throttle percentage, and a stage-local axis. -/
structure Stage where
  dry_mass : ℚ
  fuel_mass : ℚ
  max_thrust_mag : ℚ
  max_dmdt : ℚ
  throttle : ℚ
  length : ℚ
  axis : Vec3
deriving DecidableEq, Repr

/-- Source `Stage.set_throttle`: raises `ValueError` unless `0.0 <= throttle <= 100.0`,
otherwise stores the throttle.  (The `isinstance` float check of the source is
the typing of the argument here.) -/
def Stage.set_throttle (s : Stage) (throttle : ℚ) : Except PyErr Stage :=
  if throttle > 100 ∨ throttle < 0 then .error .valueError
  else .ok { s with throttle := throttle }

/-- Source `Stage.current_thrust`: `max_thrust_mag * throttle / 100`. -/
def Stage.current_thrust (s : Stage) : ℚ := s.max_thrust_mag * s.throttle / 100

/-- Source `Stage.current_fuel_consumption`: `max_dmdt * throttle / 100`. -/
def Stage.current_fuel_consumption (s : Stage) : ℚ := s.max_dmdt * s.throttle / 100

/-- Source `Stage.update_mass`: subtracts `max_dmdt * throttle / 100 * time_step`
from `fuel_mass`. -/
def Stage.update_mass (s : Stage) (time_step : ℚ) : Stage :=
  { s with fuel_mass := s.fuel_mass - s.max_dmdt * s.throttle / 100 * time_step }

/-- A `Payload` in the dynamics layer: a bare mass. -/
structure Payload where
  mass : ℚ
deriving DecidableEq, Repr

/-- A `Rocket` (`rocket.py`, class `Rocket`): stage sequence (head = active
stage), booster list, payload list, drag constants, position, momentum,
orientation axis and roll rate.  The axis and roll rate live over `ℝ` because
the attitude code is trigonometric. -/
structure Rocket where
  stages : List Stage
  srbs : List Stage
  payloads : List Payload
  coeff_drag : ℚ
  cross_sec_area : ℚ
  pos : Vec3
  momentum : Vec3
  axis : Vec3R
  roll_rate : ℝ

/-- Source `Rocket.__init__`: validates `coeff_drag > 0.0` then `cross_sec_area > 0.0`
(each raising `ValueError` otherwise), then initializes empty containers, zero
momentum, the unit "up" axis `(0,1,0)` and zero roll rate. -/
def Rocket.init (pos : Vec3) (coeff_drag cross_sec_area : ℚ) : Except PyErr Rocket :=
  if coeff_drag > 0 then
    if cross_sec_area > 0 then
      .ok { stages := [], srbs := [], payloads := [],
            coeff_drag := coeff_drag, cross_sec_area := cross_sec_area,
            pos := pos, momentum := ⟨0, 0, 0⟩, axis := ⟨0, 1, 0⟩, roll_rate := 0 }
    else .error .valueError
  else .error .valueError

/-- Source `Rocket.add_stage`: appends to the stage sequence. -/
def Rocket.add_stage (r : Rocket) (s : Stage) : Rocket :=
  { r with stages := r.stages ++ [s] }

/-- Source `Rocket.add_srb`: appends to the booster list. -/
def Rocket.add_srb (r : Rocket) (s : Stage) : Rocket :=
  { r with srbs := r.srbs ++ [s] }

/-- Source `Rocket.add_payload`: appends to the payload list. -/
def Rocket.add_payload (r : Rocket) (p : Payload) : Rocket :=
  { r with payloads := r.payloads ++ [p] }

/-- Source `Rocket.total_mass`: the sum of `dry_mass + fuel_mass` over the boosters
and the stages, plus the sum of the payload masses. -/
def Rocket.total_mass (r : Rocket) : ℚ :=
  (r.srbs.map (fun s => s.dry_mass + s.fuel_mass)).sum
    + (r.stages.map (fun s => s.dry_mass + s.fuel_mass)).sum
    + (r.payloads.map (fun p => p.mass)).sum

/-- Source `Rocket.update_total_mass`: raises `ValueError` unless `time_step > 0.0`;
otherwise calls `update_mass` on `stages[0]` when the stage sequence is
non-empty and on every booster. -/
def Rocket.update_total_mass (r : Rocket) (time_step : ℚ) : Except PyErr Rocket :=
  if time_step > 0 then
    .ok { r with
            stages := match r.stages with
              | [] => []
              | a :: tl => a.update_mass time_step :: tl,
            srbs := r.srbs.map (fun s => s.update_mass time_step) }
  else .error .valueError

/-- Source `Rocket.separate_active_stage`: computes `velocity = momentum/total_mass`
(raising `ZeroDivisionError` when `total_mass` is zero), pops `stages[0]`
(raising `IndexError` when the sequence is empty), then sets
`momentum = new_total_mass * velocity`. -/
def Rocket.separate_active_stage (r : Rocket) : Except PyErr Rocket :=
  if r.total_mass = 0 then .error .zeroDivisionError
  else
    match r.stages with
    | [] => .error .indexError
    | _ :: tl =>
      let velocity := r.momentum.divScalar r.total_mass
      let r1 : Rocket := { r with stages := tl }
      .ok { r1 with momentum := Vec3.smul r1.total_mass velocity }

/-- Source `Rocket.separate_srbs`: computes `velocity = momentum/total_mass`
(raising `ZeroDivisionError` when `total_mass` is zero), clears the booster
list, then sets `momentum = new_total_mass * velocity`.  There is no emptiness
check on the booster list. -/
def Rocket.separate_srbs (r : Rocket) : Except PyErr Rocket :=
  if r.total_mass = 0 then .error .zeroDivisionError
  else
    let velocity := r.momentum.divScalar r.total_mass
    let r1 : Rocket := { r with srbs := [] }
    .ok { r1 with momentum := Vec3.smul r1.total_mass velocity }

/-- Source `Rocket.attitude`: `arccos(axis · (0,1,0))`. -/
noncomputable def Rocket.attitude (r : Rocket) : ℝ :=
  Real.arccos (r.axis.dot ⟨0, 1, 0⟩)

/-- Source `Rocket.set_attitude`: adds `roll_rate * time_step` to the current
attitude angle and points the axis at the normalized
`(sin theta, cos theta, 0)`. -/
noncomputable def Rocket.set_attitude (r : Rocket) (time_step : ℝ) : Rocket :=
  let theta := r.attitude + r.roll_rate * time_step
  { r with axis := Vec3R.hat ⟨Real.sin theta, Real.cos theta, 0⟩ }

/-- Source `Rocket.set_roll_rate`: stores the roll rate (no bound check). -/
def Rocket.set_roll_rate (r : Rocket) (roll_rate : ℝ) : Rocket :=
  { r with roll_rate := roll_rate }

/-- Source `Rocket.adjust_throttle`: silently does nothing when the stage sequence is
empty; otherwise validates `0.0 <= throttle <= 100.0` (raising `ValueError`)
and forwards to the active stage's `set_throttle`. -/
def Rocket.adjust_throttle (r : Rocket) (throttle : ℚ) : Except PyErr Rocket :=
  match r.stages with
  | [] => .ok r
  | a :: tl =>
    if throttle ≥ 0 ∧ throttle ≤ 100 then
      match a.set_throttle throttle with
      | .ok a1 => .ok { r with stages := a1 :: tl }
      | .error e => .error e
    else .error .valueError

/-- Source `Rocket.ignite_srbs`: sets every booster's throttle to `100.0` (the
source calls `set_throttle(100.0)`, whose range check trivially passes);
a no-op when there are no boosters. -/
def Rocket.ignite_srbs (r : Rocket) : Rocket :=
  { r with srbs := r.srbs.map (fun s => { s with throttle := 100 }) }

/-!
Constructor-level validation layer.  `Stage.__init__`, `Stage.set_throttle`
and `Payload.__init__` branch on `isinstance(x, float)` and on IEEE
comparisons, so they are embedded over `PyVal`/`PFloat`, which keeps the
special values `inf`, `-inf` and `nan` and Python's exact branch logic.
-/

/-- A `Stage` as produced by `Stage.__init__`, with its field values kept as
Python floats; `length` is stored as the raw configuration value because the
source never validates it. -/
structure PyStage where
  dry_mass : PFloat
  fuel_mass : PFloat
  max_thrust_mag : PFloat
  max_dmdt : PFloat
  throttle : PFloat
  length : PyVal
  axis : Vec3
deriving DecidableEq, Repr

/-- The configuration record passed to `Stage.__init__`: each recognized
option is present (`some v`) or absent (`none`). -/
structure StageOptions where
  dry_mass : Option PyVal := none
  fuel_mass : Option PyVal := none
  max_thrust_mag : Option PyVal := none
  max_dmdt : Option PyVal := none
  length : Option PyVal := none
deriving DecidableEq, Repr

/-- Lookup `options.get(key) if key in options else 0.0`: the stored value when the
option is present, the float `0.0` otherwise. -/
def StageOptions.lookup (o : Option PyVal) : PyVal :=
  o.getD (.float (.fin 0))

/-- The validation `Stage.__init__` applies to `dry_mass`, `fuel_mass`,
`max_thrust_mag` and `max_dmdt`: `TypeError` unless the value is a float,
then `ValueError` when it compares `< 0.0` (an IEEE comparison, so NaN
passes). -/
def checkStageField (v : PyVal) : Except PyErr PFloat :=
  match v with
  | .float x => if PFloat.lt x (.fin 0) then .error .valueError else .ok x
  | .nonFloat => .error .typeError

/-- Source `Stage.__init__(options)`: defaults each absent recognized option to
`0.0`, sets `throttle = 0` and `axis = Vector(0,0,0)`, then type- and
range-checks `dry_mass`, `fuel_mass`, `max_thrust_mag` and `max_dmdt` in that
order.  `length` is stored without any check. -/
def PyStage.init (o : StageOptions) : Except PyErr PyStage :=
  match checkStageField (StageOptions.lookup o.dry_mass) with
  | .error e => .error e
  | .ok d =>
    match checkStageField (StageOptions.lookup o.fuel_mass) with
    | .error e => .error e
    | .ok f =>
      match checkStageField (StageOptions.lookup o.max_thrust_mag) with
      | .error e => .error e
      | .ok t =>
        match checkStageField (StageOptions.lookup o.max_dmdt) with
        | .error e => .error e
        | .ok m =>
          .ok { dry_mass := d, fuel_mass := f, max_thrust_mag := t, max_dmdt := m,
                throttle := .fin 0, length := StageOptions.lookup o.length,
                axis := ⟨0, 0, 0⟩ }

/-- Source `Stage.set_throttle` at the Python-float level: `TypeError` unless the
argument is a float; `ValueError` when it compares `> 100.0` or `< 0.0`
(IEEE comparisons, so NaN raises no error); otherwise stores the value. -/
def PyStage.set_throttle (s : PyStage) (throttle : PyVal) : Except PyErr PyStage :=
  match throttle with
  | .float t =>
    if PFloat.gt t (.fin 100) || PFloat.lt t (.fin 0) then .error .valueError
    else .ok { s with throttle := t }
  | .nonFloat => .error .typeError

/-- A `Payload` as produced by `Payload.__init__`: only the mass is stored. -/
structure PyPayload where
  mass : PFloat
deriving DecidableEq, Repr

/-- Source `Payload.__init__(mass, length)`: `TypeError` unless `mass` is a float;
`ValueError` unless `mass > 0.0` (an IEEE comparison, so `inf` passes and NaN
fails); stores the mass.  The `length` argument is never used. -/
def PyPayload.init (mass length : PyVal) : Except PyErr PyPayload :=
  match mass with
  | .float m =>
    if PFloat.gt m (.fin 0) then .ok { mass := m } else .error .valueError
  | .nonFloat => .error .typeError

/-!
Spec-side definitions and auxiliary machinery for the theorems.
-/

/-- Spec-side: a configuration value passes `Stage.__init__` validation with
result `x` when it is the float `x` and `x` does not compare `< 0.0`. -/
def acceptedField (v : PyVal) (x : PFloat) : Prop :=
  v = .float x ∧ PFloat.lt x (.fin 0) = false

/-- Iterating `update_mass`: `n` successive calls with the same time step. -/
def stageIter (s : Stage) (dt : ℚ) : Nat → Stage
  | 0 => s
  | n + 1 => (stageIter s dt n).update_mass dt

/-- Spec-side description of `separate_active_stage` as the specification
words it: the head stage is removed and the momentum is scaled by
`new_total_mass / old_total_mass`. -/
def afterStageSeparation (r : Rocket) : Rocket :=
  { r with stages := r.stages.tail,
           momentum := Vec3.smul
             (Rocket.total_mass { r with stages := r.stages.tail } / r.total_mass)
             r.momentum }

/-- One mutating `Rocket` operation, with its arguments; fallible operations
step only when they return normally. -/
inductive RocketStep : Rocket → Rocket → Prop where
  | add_stage (r : Rocket) (s : Stage) : RocketStep r (r.add_stage s)
  | add_srb (r : Rocket) (s : Stage) : RocketStep r (r.add_srb s)
  | add_payload (r : Rocket) (p : Payload) : RocketStep r (r.add_payload p)
  | set_roll_rate (r : Rocket) (v : ℝ) : RocketStep r (r.set_roll_rate v)
  | set_attitude (r : Rocket) (dt : ℝ) : RocketStep r (r.set_attitude dt)
  | ignite_srbs (r : Rocket) : RocketStep r r.ignite_srbs
  | update_total_mass (r r' : Rocket) (dt : ℚ) :
      r.update_total_mass dt = .ok r' → RocketStep r r'
  | adjust_throttle (r r' : Rocket) (v : ℚ) :
      r.adjust_throttle v = .ok r' → RocketStep r r'
  | separate_active_stage (r r' : Rocket) :
      r.separate_active_stage = .ok r' → RocketStep r r'
  | separate_srbs (r r' : Rocket) :
      r.separate_srbs = .ok r' → RocketStep r r'

/-!
Concrete objects used by the witness theorems.
-/

/-- A stage burning at half throttle, for the fuel-burn witness. -/
def sW5 : Stage := ⟨100, 50, 1000, 2, 50, 10, ⟨0, 0, 0⟩⟩

/-- A constructed stage value at the Python-float level. -/
def pyS0 : PyStage :=
  ⟨.fin 1, .fin 2, .fin 3, .fin 4, .fin 0, .float (.fin 0), ⟨0, 0, 0⟩⟩

/-- Configuration with a negative `length` and nothing else. -/
def oNegLen : StageOptions := { length := some (.float (.fin (-1))) }

/-- First stage of the witness rocket. -/
def stageA : Stage := ⟨100, 50, 1000, 5, 0, 10, ⟨0, 0, 0⟩⟩

/-- Second (reserve) stage of the witness rocket. -/
def stageB : Stage := ⟨30, 20, 500, 3, 0, 8, ⟨0, 0, 0⟩⟩

/-- Witness rocket with two stages and a payload, carrying momentum. -/
def rC1 : Rocket :=
  { stages := [stageA, stageB], srbs := [], payloads := [⟨5⟩],
    coeff_drag := 1/2, cross_sec_area := 2, pos := ⟨0, 0, 0⟩,
    momentum := ⟨3, 4, 5⟩, axis := ⟨0, 1, 0⟩, roll_rate := 0 }

/-- Witness rocket with no stages and no boosters but a payload, so its total
mass is nonzero. -/
def rC2 : Rocket :=
  { stages := [], srbs := [], payloads := [⟨5⟩],
    coeff_drag := 1/2, cross_sec_area := 2, pos := ⟨0, 0, 0⟩,
    momentum := ⟨3, 4, 5⟩, axis := ⟨0, 1, 0⟩, roll_rate := 0 }

/-- The rocket produced by `Rocket.init ⟨0,0,0⟩ 1 1`. -/
def r0W : Rocket :=
  { stages := [], srbs := [], payloads := [],
    coeff_drag := 1, cross_sec_area := 1, pos := ⟨0, 0, 0⟩,
    momentum := ⟨0, 0, 0⟩, axis := ⟨0, 1, 0⟩, roll_rate := 0 }

/-- Witness rocket for the attitude round trip: upright axis and a roll rate
of `π / 1`. -/
noncomputable def rW8 : Rocket :=
  { stages := [], srbs := [], payloads := [],
    coeff_drag := 1, cross_sec_area := 1, pos := ⟨0, 0, 0⟩,
    momentum := ⟨0, 0, 0⟩, axis := ⟨0, 1, 0⟩, roll_rate := Real.pi / 1 }

/-!
Helper lemmas (shared).
-/

theorem stageIter_max_dmdt (s : Stage) (dt : ℚ) (n : ℕ) :
    (stageIter s dt n).max_dmdt = s.max_dmdt := by
  induction n with
  | zero => rfl
  | succ k ih => simp [stageIter, Stage.update_mass, ih]

theorem stageIter_throttle (s : Stage) (dt : ℚ) (n : ℕ) :
    (stageIter s dt n).throttle = s.throttle := by
  induction n with
  | zero => rfl
  | succ k ih => simp [stageIter, Stage.update_mass, ih]

theorem stageIter_fuel_step (s : Stage) (dt : ℚ) (n : ℕ) :
    (stageIter s dt (n + 1)).fuel_mass =
      (stageIter s dt n).fuel_mass - s.max_dmdt * s.throttle / 100 * dt := by
  show ((stageIter s dt n).update_mass dt).fuel_mass = _
  simp [Stage.update_mass, stageIter_max_dmdt, stageIter_throttle]

theorem checkStageField_ok_iff (v : PyVal) (x : PFloat) :
    checkStageField v = .ok x ↔ acceptedField v x := by
  cases v with
  | float y =>
    cases hlt : PFloat.lt y (.fin 0) with
    | false =>
      have hv : checkStageField (.float y) = .ok y := by
        simp [checkStageField, hlt]
      rw [hv]
      unfold acceptedField
      constructor
      · intro h
        injection h with h3
        subst h3
        exact ⟨rfl, hlt⟩
      · rintro ⟨hveq, h2⟩
        injection hveq with h3
        subst h3
        rfl
    | true =>
      simp only [checkStageField, hlt, if_true, acceptedField]
      constructor
      · intro h; exact absurd h (by simp)
      · rintro ⟨hv, h2⟩
        cases hv
        rw [hlt] at h2
        exact absurd h2 (by simp)
  | nonFloat => simp [checkStageField, acceptedField]

/-!
Claim theorems.
-/

/-- C5: for every `Stage` with `throttle > 0`, `max_dmdt > 0` and every
`dt > 0`, each `update_mass dt` call strictly decreases `fuel_mass`, and after
`n` successive calls with the same `dt` the total decrease equals
`n * max_dmdt * throttle/100 * dt`. -/
theorem stage_fuel_burn_linear (s : Stage) (dt : ℚ) (n : ℕ)
    (hth : 0 < s.throttle) (hdm : 0 < s.max_dmdt) (hdt : 0 < dt) :
    (stageIter s dt (n + 1)).fuel_mass < (stageIter s dt n).fuel_mass ∧
    s.fuel_mass - (stageIter s dt n).fuel_mass = n * s.max_dmdt * (s.throttle / 100) * dt := by
  have hpos : 0 < s.max_dmdt * s.throttle / 100 * dt :=
    mul_pos (div_pos (mul_pos hdm hth) (by norm_num)) hdt
  constructor
  · rw [stageIter_fuel_step]
    linarith
  · induction n with
    | zero => simp [stageIter]
    | succ k ih =>
      rw [stageIter_fuel_step]
      push_cast
      push_cast at ih
      linear_combination ih

/-- Witness for C5 at a concrete stage (`max_dmdt = 2`, `throttle = 50`),
`dt = 1` and `n = 3`. -/
theorem stage_fuel_burn_linear_witness :
    (stageIter sW5 1 (3 + 1)).fuel_mass < (stageIter sW5 1 3).fuel_mass ∧
    sW5.fuel_mass - (stageIter sW5 1 3).fuel_mass =
      (3 : ℕ) * sW5.max_dmdt * (sW5.throttle / 100) * 1 :=
  stage_fuel_burn_linear sW5 1 3 (by norm_num [sW5]) (by norm_num [sW5]) (by norm_num)

/-- C6 counterexample: `set_throttle` accepts the float NaN, a value outside
the closed interval `[0.0, 100.0]`, because both IEEE comparisons in the guard
are false; so the claim that every value outside the interval is rejected
fails. -/
theorem set_throttle_nan_accepted :
    pyS0.set_throttle (.float .nan) = .ok { pyS0 with throttle := .nan } := rfl

/-- C6 amended: among floats, `set_throttle` rejects with `ValueError` exactly
the values comparing `> 100.0` or `< 0.0` under IEEE ordering; in particular
it accepts exactly the finite values in `[0, 100]` on finite input (rejecting
`-0.1` and `100.1`) but accepts NaN; non-floats raise `TypeError`.  In this
functional embedding a failed call produces no new stage, so the throttle is
unchanged on failure. -/
theorem set_throttle_amended (s : PyStage) (x : PFloat) (q : ℚ) :
    (s.set_throttle (.float x) = .ok { s with throttle := x } ↔
      (PFloat.gt x (.fin 100) = false ∧ PFloat.lt x (.fin 0) = false)) ∧
    (PFloat.gt x (.fin 100) = true ∨ PFloat.lt x (.fin 0) = true →
      s.set_throttle (.float x) = .error .valueError) ∧
    (s.set_throttle (.float (.fin q)) = .ok { s with throttle := .fin q } ↔
      0 ≤ q ∧ q ≤ 100) ∧
    s.set_throttle .nonFloat = .error .typeError := by
  refine ⟨?_, ?_, ?_, rfl⟩
  · cases hgt : PFloat.gt x (.fin 100) <;> cases hlt : PFloat.lt x (.fin 0) <;>
      simp [PyStage.set_throttle, hgt, hlt]
  · rintro (h | h) <;> simp [PyStage.set_throttle, h]
  · have hgt : PFloat.gt (.fin q) (.fin 100) = decide (100 < q) := rfl
    have hlt : PFloat.lt (.fin q) (.fin 0) = decide (q < 0) := rfl
    by_cases h1 : 100 < q <;> by_cases h2 : q < 0 <;>
      simp [PyStage.set_throttle, hgt, hlt, h1, h2] <;>
      first
        | linarith
        | (constructor <;> linarith)

/-- Witness for C6 at the boundary value `100.0` and at `-0.1`. -/
theorem set_throttle_amended_witness :
    (pyS0.set_throttle (.float (.fin 100)) = .ok { pyS0 with throttle := .fin 100 } ↔
      (PFloat.gt (.fin 100) (.fin 100) = false ∧ PFloat.lt (.fin 100) (.fin 0) = false)) ∧
    (PFloat.gt (.fin 100) (.fin 100) = true ∨ PFloat.lt (.fin 100) (.fin 0) = true →
      pyS0.set_throttle (.float (.fin 100)) = .error .valueError) ∧
    (pyS0.set_throttle (.float (.fin (-1/10))) = .ok { pyS0 with throttle := .fin (-1/10) } ↔
      0 ≤ (-1/10 : ℚ) ∧ (-1/10 : ℚ) ≤ 100) ∧
    pyS0.set_throttle .nonFloat = .error .typeError :=
  set_throttle_amended pyS0 (.fin 100) (-1/10)

/-- C9 counterexample: `Payload.__init__` accepts `float('inf')`, a non-finite
mass, because `inf > 0.0` is true; so the claim that every non-finite mass is
rejected fails. -/
theorem payload_accepts_inf :
    PyPayload.init (.float .inf) (.float (.fin 1)) = .ok { mass := .inf } := rfl

/-- C9 amended: `Payload.__init__` raises `TypeError` when the mass is not a
float and `ValueError` when the float mass does not compare `> 0.0` under IEEE
ordering — so zero, negative values, `-inf` and NaN are rejected, but `+inf`
is accepted and stored, as is every finite positive value. -/
theorem payload_init_amended (length : PyVal) (m : PFloat) (q : ℚ) :
    (PyPayload.init (.float m) length = .ok { mass := m } ↔
      PFloat.gt m (.fin 0) = true) ∧
    (PFloat.gt m (.fin 0) = false →
      PyPayload.init (.float m) length = .error .valueError) ∧
    (PyPayload.init (.float (.fin q)) length = .ok { mass := .fin q } ↔ 0 < q) ∧
    PyPayload.init .nonFloat length = .error .typeError := by
  refine ⟨?_, ?_, ?_, rfl⟩
  · cases hgt : PFloat.gt m (.fin 0) <;> simp [PyPayload.init, hgt]
  · intro h; simp [PyPayload.init, h]
  · have hgt : PFloat.gt (.fin q) (.fin 0) = decide (0 < q) := rfl
    by_cases h1 : 0 < q <;> simp [PyPayload.init, hgt, h1]

/-- Witness for C9 at NaN (rejected) and at the finite mass `5` (accepted). -/
theorem payload_init_amended_witness :
    (PyPayload.init (.float .nan) .nonFloat = .ok { mass := .nan } ↔
      PFloat.gt .nan (.fin 0) = true) ∧
    (PFloat.gt .nan (.fin 0) = false →
      PyPayload.init (.float .nan) .nonFloat = .error .valueError) ∧
    (PyPayload.init (.float (.fin 5)) .nonFloat = .ok { mass := .fin 5 } ↔ 0 < (5 : ℚ)) ∧
    PyPayload.init .nonFloat .nonFloat = .error .typeError :=
  payload_init_amended .nonFloat .nan 5

/-- C10: the `length` argument of `Payload.__init__` has no effect — for a
positive float mass, any two lengths produce identical payloads, whose state
is just the stored mass. -/
theorem payload_length_ignored (mass l1 l2 : PyVal) (m : PFloat)
    (hm : mass = .float m) (hpos : PFloat.gt m (.fin 0) = true) :
    PyPayload.init mass l1 = PyPayload.init mass l2 ∧
    PyPayload.init mass l1 = .ok { mass := m } := by
  subst hm
  exact ⟨rfl, by simp [PyPayload.init, hpos]⟩

/-- Witness for C10 at mass `2.0` with two different lengths. -/
theorem payload_length_ignored_witness :
    PyPayload.init (.float (.fin 2)) .nonFloat =
      PyPayload.init (.float (.fin 2)) (.float (.fin 7)) ∧
    PyPayload.init (.float (.fin 2)) .nonFloat = .ok { mass := .fin 2 } :=
  payload_length_ignored (.float (.fin 2)) .nonFloat (.float (.fin 7)) (.fin 2) rfl rfl

/-- C3 counterexample: a configuration providing the negative value `-1.0` for
`length` is accepted by `Stage.__init__` — the stage is constructed and the
negative length stored — so the claim that a negative provided `length` is
rejected fails. -/
theorem stage_negative_length_accepted :
    PyStage.init oNegLen =
      .ok { dry_mass := .fin 0, fuel_mass := .fin 0, max_thrust_mag := .fin 0,
            max_dmdt := .fin 0, throttle := .fin 0, length := .float (.fin (-1)),
            axis := ⟨0, 0, 0⟩ } := rfl

/-- C3 amended: `Stage.__init__` substitutes `0.0` for each absent recognized
option and validates only `dry_mass`, `fuel_mass`, `max_thrust_mag` and
`max_dmdt` (`TypeError` for a non-float, `ValueError` for a value comparing
`< 0.0`); `length` is stored entirely unvalidated; on success `throttle = 0`
and `axis` is the zero vector. -/
theorem stage_init_amended (o : StageOptions) (s : PyStage) :
    PyStage.init o = .ok s ↔
      (acceptedField (StageOptions.lookup o.dry_mass) s.dry_mass ∧
       acceptedField (StageOptions.lookup o.fuel_mass) s.fuel_mass ∧
       acceptedField (StageOptions.lookup o.max_thrust_mag) s.max_thrust_mag ∧
       acceptedField (StageOptions.lookup o.max_dmdt) s.max_dmdt ∧
       s.throttle = .fin 0 ∧ s.length = StageOptions.lookup o.length ∧
       s.axis = ⟨0, 0, 0⟩) := by
  cases s with
  | mk sd sf st sm sth slen sax =>
    unfold PyStage.init
    cases hd : checkStageField (StageOptions.lookup o.dry_mass) with
    | error ed => simp_all [← checkStageField_ok_iff]
    | ok d =>
      cases hf : checkStageField (StageOptions.lookup o.fuel_mass) with
      | error ef => simp_all [← checkStageField_ok_iff]
      | ok f =>
        cases ht : checkStageField (StageOptions.lookup o.max_thrust_mag) with
        | error et => simp_all [← checkStageField_ok_iff]
        | ok t =>
          cases hm : checkStageField (StageOptions.lookup o.max_dmdt) with
          | error em => simp_all [← checkStageField_ok_iff]
          | ok m =>
            simp_all [← checkStageField_ok_iff, PyStage.mk.injEq]
            tauto

/-- Witness for C3 at the configuration providing only a negative length. -/
theorem stage_init_amended_witness :
    PyStage.init oNegLen =
        .ok ⟨.fin 0, .fin 0, .fin 0, .fin 0, .fin 0, .float (.fin (-1)), ⟨0, 0, 0⟩⟩ ↔
      (acceptedField (StageOptions.lookup oNegLen.dry_mass) (.fin 0) ∧
       acceptedField (StageOptions.lookup oNegLen.fuel_mass) (.fin 0) ∧
       acceptedField (StageOptions.lookup oNegLen.max_thrust_mag) (.fin 0) ∧
       acceptedField (StageOptions.lookup oNegLen.max_dmdt) (.fin 0) ∧
       (PFloat.fin 0 : PFloat) = .fin 0 ∧
       (PyVal.float (.fin (-1)) : PyVal) = StageOptions.lookup oNegLen.length ∧
       (⟨0, 0, 0⟩ : Vec3) = ⟨0, 0, 0⟩) :=
  stage_init_amended oNegLen ⟨.fin 0, .fin 0, .fin 0, .fin 0, .fin 0, .float (.fin (-1)), ⟨0, 0, 0⟩⟩

theorem divScalar_smul_div (P : Vec3) (M M1 : ℚ) (hM : M ≠ 0) (hM1 : M1 ≠ 0) :
    Vec3.divScalar (Vec3.smul (M1 / M) P) M1 = Vec3.divScalar P M := by
  unfold Vec3.divScalar Vec3.smul
  field_simp
  refine ⟨?_, ?_, ?_⟩ <;> ring

/-- C1: on a rocket with a non-empty stage sequence and nonzero total mass
`M`, `separate_active_stage` removes `stages[0]` and scales the momentum `P`
to `P * (M1 / M)` where `M1` is the total mass after removal; consequently the
bulk velocity `momentum / total_mass` is unchanged whenever `M1` is nonzero. -/
theorem separate_active_stage_momentum (r : Rocket) (hne : r.stages ≠ [])
    (hM : r.total_mass ≠ 0) :
    r.separate_active_stage = .ok (afterStageSeparation r) ∧
    ((afterStageSeparation r).total_mass ≠ 0 →
      Vec3.divScalar (afterStageSeparation r).momentum (afterStageSeparation r).total_mass =
        Vec3.divScalar r.momentum r.total_mass) := by
  obtain ⟨a, tl, hst⟩ : ∃ a tl, r.stages = a :: tl := by
    cases h : r.stages with
    | nil => exact absurd h hne
    | cons a tl => exact ⟨a, tl, rfl⟩
  constructor
  · unfold Rocket.separate_active_stage afterStageSeparation
    rw [if_neg hM, hst]
    simp only [List.tail_cons]
    congr 1
    obtain ⟨st, sr, pl, cd, ca, pos, ⟨px, py, pz⟩, ax, rr⟩ := r
    simp only [Rocket.mk.injEq, and_true, true_and]
    unfold Vec3.smul Vec3.divScalar
    simp only [Vec3.mk.injEq]
    refine ⟨?_, ?_, ?_⟩ <;> ring
  · intro hM1
    have h2 : (afterStageSeparation r).momentum =
        Vec3.smul ((afterStageSeparation r).total_mass / r.total_mass) r.momentum := rfl
    rw [h2]
    exact divScalar_smul_div r.momentum r.total_mass (afterStageSeparation r).total_mass hM hM1

/-- Witness for C1: a rocket with two stages and a payload, momentum
`(3,4,5)`, total mass `205`; both separation hypotheses and the nonzero
post-separation mass (`55`) are discharged concretely. -/
theorem separate_active_stage_momentum_witness :
    (rC1.separate_active_stage = .ok (afterStageSeparation rC1) ∧
      ((afterStageSeparation rC1).total_mass ≠ 0 →
        Vec3.divScalar (afterStageSeparation rC1).momentum
            (afterStageSeparation rC1).total_mass =
          Vec3.divScalar rC1.momentum rC1.total_mass)) ∧
    Vec3.divScalar (afterStageSeparation rC1).momentum (afterStageSeparation rC1).total_mass =
      Vec3.divScalar rC1.momentum rC1.total_mass :=
  ⟨separate_active_stage_momentum rC1 (by simp [rC1])
      (by norm_num [rC1, Rocket.total_mass, stageA, stageB]),
   (separate_active_stage_momentum rC1 (by simp [rC1])
      (by norm_num [rC1, Rocket.total_mass, stageA, stageB])).2
    (by norm_num [afterStageSeparation, rC1, Rocket.total_mass, stageA, stageB,
          List.tail_cons])⟩

/-- C2 counterexample: `separate_srbs` on a rocket whose booster set is empty
(but whose total mass is nonzero) does not fail — it returns the rocket
unchanged — so the claim that it fails with `PreconditionViolation` on an
empty booster collection is false. -/
theorem separate_srbs_empty_succeeds :
    rC2.srbs = [] ∧ rC2.separate_srbs = .ok rC2 := by
  constructor
  · rfl
  · norm_num [Rocket.separate_srbs, rC2, Rocket.total_mass, Vec3.smul, Vec3.divScalar]

/-- C2 amended: `separate_active_stage` on an empty stage sequence does fail,
but with `ZeroDivisionError` (when the total mass is zero, from
`momentum/total_mass`) or `IndexError` (from popping the empty list) rather
than a dedicated `PreconditionViolation`, which does not exist in the code;
`separate_srbs` on an empty booster set with nonzero total mass does not fail
at all: it is a no-op returning the rocket unchanged. -/
theorem separation_on_empty (r : Rocket) :
    (r.stages = [] →
      r.separate_active_stage =
        .error (if r.total_mass = 0 then PyErr.zeroDivisionError else PyErr.indexError)) ∧
    (r.srbs = [] → r.total_mass ≠ 0 → r.separate_srbs = .ok r) := by
  constructor
  · intro hst
    unfold Rocket.separate_active_stage
    by_cases hM : r.total_mass = 0
    · simp [hM]
    · simp [hM, hst]
  · intro hsrbs hM
    obtain ⟨st, sr, pl, cd, ca, pos, ⟨px, py, pz⟩, ax, rr⟩ := r
    replace hsrbs : sr = [] := hsrbs
    subst hsrbs
    unfold Rocket.separate_srbs
    rw [if_neg hM]
    unfold Vec3.smul Vec3.divScalar
    simp only [Except.ok.injEq, Rocket.mk.injEq, Vec3.mk.injEq, and_true, true_and]
    refine ⟨?_, ?_, ?_⟩ <;> field_simp

/-- Witness for C2: on a rocket with no stages, no boosters and a payload of
mass `5`, separating the active stage fails with `IndexError` while
separating the boosters succeeds unchanged. -/
theorem separation_on_empty_witness :
    rC2.separate_active_stage =
      .error (if rC2.total_mass = 0 then PyErr.zeroDivisionError else PyErr.indexError) ∧
    rC2.separate_srbs = .ok rC2 :=
  ⟨(separation_on_empty rC2).1 rfl,
   (separation_on_empty rC2).2 rfl (by norm_num [rC2, Rocket.total_mass])⟩

/-- C4: `update_total_mass dt` fails with `ValueError` unless `dt > 0`; when
`dt > 0` it succeeds, applying `update_mass dt` to the active stage (the take
of the first element) and to every booster, and leaving the reserve stages
(the drop from index 1) — in particular their `fuel_mass` — unchanged, and
every other field of the rocket untouched. -/
theorem update_total_mass_spec (r : Rocket) (dt : ℚ) :
    (dt ≤ 0 → r.update_total_mass dt = .error .valueError) ∧
    (0 < dt → r.update_total_mass dt = .ok
      { r with
          stages := (r.stages.take 1).map (fun s => s.update_mass dt) ++ r.stages.drop 1,
          srbs := r.srbs.map (fun s => s.update_mass dt) }) := by
  constructor
  · intro h
    unfold Rocket.update_total_mass
    rw [if_neg (not_lt.mpr h)]
  · intro h
    unfold Rocket.update_total_mass
    rw [if_pos h]
    obtain ⟨st, sr, pl, cd, ca, pos, mom, ax, rr⟩ := r
    cases st with
    | nil => rfl
    | cons a tl => rfl

/-- Witness for C4: on the two-stage rocket, `dt = -1` is rejected and
`dt = 2` updates the active stage and boosters only. -/
theorem update_total_mass_spec_witness :
    rC1.update_total_mass (-1) = .error .valueError ∧
    rC1.update_total_mass 2 = .ok
      { rC1 with
          stages := (rC1.stages.take 1).map (fun s => s.update_mass 2) ++ rC1.stages.drop 1,
          srbs := rC1.srbs.map (fun s => s.update_mass 2) } :=
  ⟨(update_total_mass_spec rC1 (-1)).1 (by norm_num),
   (update_total_mass_spec rC1 2).2 (by norm_num)⟩

theorem norm_sincos (t : ℝ) :
    Vec3R.norm ⟨Real.sin t, Real.cos t, 0⟩ = 1 := by
  show Real.sqrt (Real.sin t ^ 2 + Real.cos t ^ 2 + 0 ^ 2) = 1
  have h : Real.sin t ^ 2 + Real.cos t ^ 2 + 0 ^ 2 = 1 := by
    rw [Real.sin_sq_add_cos_sq]; norm_num
  rw [h, Real.sqrt_one]

theorem hat_of_norm_one (v : Vec3R) (h : v.norm = 1) : v.hat = v := by
  obtain ⟨a, b, c⟩ := v
  unfold Vec3R.hat
  rw [h]
  simp

theorem set_attitude_axis_norm (r : Rocket) (dt : ℝ) :
    Vec3R.norm (r.set_attitude dt).axis = 1 := by
  have h := norm_sincos (r.attitude + r.roll_rate * dt)
  show Vec3R.norm (Vec3R.hat ⟨Real.sin (r.attitude + r.roll_rate * dt),
    Real.cos (r.attitude + r.roll_rate * dt), 0⟩) = 1
  rw [hat_of_norm_one _ h, h]

theorem update_total_mass_axis (r r' : Rocket) (dt : ℚ)
    (h : r.update_total_mass dt = .ok r') : r'.axis = r.axis := by
  unfold Rocket.update_total_mass at h
  split at h
  · injection h with h1
    rw [← h1]
  · exact Except.noConfusion h

theorem adjust_throttle_axis (r r' : Rocket) (v : ℚ)
    (h : r.adjust_throttle v = .ok r') : r'.axis = r.axis := by
  unfold Rocket.adjust_throttle at h
  split at h
  · injection h with h1
    rw [← h1]
  · split at h
    · split at h
      · injection h with h1
        rw [← h1]
      · exact Except.noConfusion h
    · exact Except.noConfusion h

theorem separate_active_stage_axis (r r' : Rocket)
    (h : r.separate_active_stage = .ok r') : r'.axis = r.axis := by
  unfold Rocket.separate_active_stage at h
  split at h
  · exact Except.noConfusion h
  · split at h
    · exact Except.noConfusion h
    · injection h with h1
      rw [← h1]

theorem separate_srbs_axis (r r' : Rocket)
    (h : r.separate_srbs = .ok r') : r'.axis = r.axis := by
  unfold Rocket.separate_srbs at h
  split at h
  · exact Except.noConfusion h
  · injection h with h1
    rw [← h1]

/-- C7: the rocket's axis is the unit "up" vector `(0,1,0)` right after
construction, and along any sequence of rocket operations starting from a
constructed rocket the axis always has unit length (`set_attitude`
renormalizes its result; no other operation alters the axis). -/
theorem rocket_axis_unit (pos : Vec3) (cd csa : ℚ) (r0 r : Rocket)
    (h0 : Rocket.init pos cd csa = .ok r0)
    (h : Relation.ReflTransGen RocketStep r0 r) :
    r0.axis = ⟨0, 1, 0⟩ ∧ Vec3R.norm r.axis = 1 := by
  have hax0 : r0.axis = ⟨0, 1, 0⟩ := by
    unfold Rocket.init at h0
    split at h0
    · split at h0
      · injection h0 with h1
        rw [← h1]
      · exact Except.noConfusion h0
    · exact Except.noConfusion h0
  refine ⟨hax0, ?_⟩
  have hn0 : Vec3R.norm r0.axis = 1 := by
    rw [hax0]
    show Real.sqrt ((0 : ℝ) ^ 2 + 1 ^ 2 + 0 ^ 2) = 1
    norm_num
  induction h with
  | refl => exact hn0
  | tail hab hstep ih =>
    cases hstep with
    | add_stage s => exact ih
    | add_srb s => exact ih
    | add_payload p => exact ih
    | set_roll_rate v => exact ih
    | set_attitude dt => exact set_attitude_axis_norm _ dt
    | ignite_srbs => exact ih
    | update_total_mass b2 dt hok => rw [update_total_mass_axis _ _ _ hok]; exact ih
    | adjust_throttle b2 v hok => rw [adjust_throttle_axis _ _ _ hok]; exact ih
    | separate_active_stage b2 hok => rw [separate_active_stage_axis _ _ hok]; exact ih
    | separate_srbs b2 hok => rw [separate_srbs_axis _ _ hok]; exact ih

/-- Witness for C7: the freshly constructed rocket itself (empty operation
sequence). -/
theorem rocket_axis_unit_witness :
    r0W.axis = ⟨0, 1, 0⟩ ∧ Vec3R.norm r0W.axis = 1 :=
  rocket_axis_unit ⟨0, 0, 0⟩ 1 1 r0W r0W (by norm_num [Rocket.init, r0W]) .refl

/-- C8: with the upright axis `(0,1,0)` the attitude is `0`, and calling
`set_attitude dt` with `roll_rate = π/dt` flips the axis to `(0,-1,0)`. -/
theorem attitude_round_trip (r : Rocket) (dt : ℝ)
    (hax : r.axis = ⟨0, 1, 0⟩) (hdt : 0 < dt) (hrr : r.roll_rate = Real.pi / dt) :
    r.attitude = 0 ∧ (r.set_attitude dt).axis = ⟨0, -1, 0⟩ := by
  have hatt : r.attitude = 0 := by
    unfold Rocket.attitude
    rw [hax]
    show Real.arccos (0 * 0 + 1 * 1 + 0 * 0) = 0
    norm_num [Real.arccos_one]
  refine ⟨hatt, ?_⟩
  show Vec3R.hat ⟨Real.sin (r.attitude + r.roll_rate * dt),
    Real.cos (r.attitude + r.roll_rate * dt), 0⟩ = ⟨0, -1, 0⟩
  have hth : r.attitude + r.roll_rate * dt = Real.pi := by
    rw [hatt, hrr, zero_add, div_mul_cancel₀ _ (ne_of_gt hdt)]
  rw [hth, Real.sin_pi, Real.cos_pi]
  have hn : Vec3R.norm ⟨0, -1, 0⟩ = 1 := by
    show Real.sqrt ((0 : ℝ) ^ 2 + (-1) ^ 2 + 0 ^ 2) = 1
    norm_num
  exact hat_of_norm_one _ hn

/-- Witness for C8: upright rocket with `roll_rate = π/1` and `dt = 1`. -/
theorem attitude_round_trip_witness :
    rW8.attitude = 0 ∧ (rW8.set_attitude 1).axis = ⟨0, -1, 0⟩ :=
  attitude_round_trip rW8 1 rfl one_pos rfl
